import Mathlib

/-
Verification of the SpeechCopilot wizard (src/frontend/src/App.js).

The whole program is a single React component.  Its state is five `useState`
cells (`currentStep`, `wizardData`, `generatedSpeech`, `isLoading`, `error`)
and its behaviour is a handful of event handlers.  We embed the state as a
`Session` structure and every handler as a pure function on it; the one
asynchronous boundary (the `fetch` inside `speechAPI.generateSpeech` /
`speechAPI.testConnection`) is embedded by passing the outcome of the network
call as an explicit `FetchResult` argument, so a whole `submit` (click on the
generate button, request, response handling, `finally`) becomes one atomic
transition, matching the single-threaded event model of the code.
-/

/-- Outcome of a `fetch` call as observed by the code: either the network call
itself throws (with `error.message = msg`), or a response arrives carrying a
`status` code together with the outcome of `response.json()` — `Except.ok b`
when the body parses as a `β`, `Except.error m` when parsing rejects. -/
inductive FetchResult (β : Type) where
  | netError (msg : String)
  | response (status : Nat) (body : Except String β)

/-- `response.ok` of the Fetch API: status in the inclusive range 200–299. -/
def respOk (status : Nat) : Bool :=
  200 ≤ status && status ≤ 299

/-- The fields of the generation response body that App.js reads
(`result.speech`, `result.structure`, `result.suggestions`); the latter two
are never inspected, so they are kept as opaque strings. -/
structure SpeechBody where
  speech : String
  structure_ : String
  suggestions : String
  deriving DecidableEq

/-- JavaScript `s || d` for string `s`: the empty string is falsy. -/
def jsStringOr (s d : String) : String :=
  if s = "" then d else s

/-- The `wizardData` object (App.js lines 52–61).  All fields are strings in
the code (`length` is kept as the string form of the minute count, e.g. "5").
`language` is an `Option` because `resetWizard` builds a replacement object
with no `language` key, after which `wizardData.language` is `undefined`. -/
structure WizardData where
  occasion : String
  audience : String
  tone : String
  length : String
  template : String
  topic : String
  additionalContext : String
  language : Option String
  deriving DecidableEq

/-- The `metadata` object attached to a generated speech
(App.js lines 81–88): six fields, copied from `wizardData` at submit time. -/
structure Metadata where
  occasion : String
  audience : String
  tone : String
  length : String
  template : String
  language : Option String
  deriving DecidableEq

/-- The `generatedSpeech` state value built on success (App.js lines 77–89). -/
structure GeneratedSpeech where
  speech : String
  structure_ : String
  suggestions : String
  metadata : Metadata
  deriving DecidableEq

/-- The component state: the five `useState` cells of App.js (lines 51–64). -/
structure Session where
  currentStep : Nat
  wizardData : WizardData
  generatedSpeech : Option GeneratedSpeech
  isLoading : Bool
  error : Option String
  deriving DecidableEq

/-- Initial `wizardData` (App.js lines 52–61). -/
def initialWizardData : WizardData :=
  { occasion := ""
    audience := ""
    tone := "formal"
    length := "5"
    template := ""
    topic := ""
    additionalContext := ""
    language := some "english" }

/-- Initial component state (App.js lines 51–64). -/
def initialSession : Session :=
  { currentStep := 0
    wizardData := initialWizardData
    generatedSpeech := none
    isLoading := false
    error := none }

/-- The JSON body of the POST to `/api/generate-speech` (App.js lines 25–34),
as the ordered key/value list produced by `JSON.stringify`.  `topic` and
`additionalContext` go through `|| ''`; a key whose value is `undefined`
(only possible for `language`, after a reset) is omitted by
`JSON.stringify`, so the `language` entry is present only when the field is
defined. -/
def requestBody (w : WizardData) : List (String × String) :=
  [("occasion", w.occasion),
   ("audience", w.audience),
   ("tone", w.tone),
   ("length", w.length),
   ("template", w.template),
   ("topic", jsStringOr w.topic ""),
   ("additional_context", jsStringOr w.additionalContext "")]
  ++ (match w.language with
      | some l => [("language", l)]
      | none => [])

namespace speechAPI

/-- `speechAPI.testConnection` (App.js lines 8–16): awaits the fetch, then
returns `response.json()`; it never looks at the status code.  A network
throw or a JSON-parse rejection propagates as the error. -/
def testConnection {β : Type} (r : FetchResult β) : Except String β :=
  match r with
  | .netError msg => .error msg
  | .response _ body => body

/-- `speechAPI.generateSpeech` (App.js lines 18–48): performs the POST; if
`!response.ok` it throws `HTTP error! status: {status}` without reading the
body; otherwise it returns `response.json()`. -/
def generateSpeech (r : FetchResult SpeechBody) : Except String SpeechBody :=
  match r with
  | .netError msg => .error msg
  | .response status body =>
      if respOk status then body
      else .error ("HTTP error! status: " ++ toString status)

end speechAPI

/-- The six-field metadata snapshot taken from `wizardData` on success
(App.js lines 81–88).  Note: no `topic` field. -/
def metadataOf (w : WizardData) : Metadata :=
  { occasion := w.occasion
    audience := w.audience
    tone := w.tone
    length := w.length
    template := w.template
    language := w.language }

namespace App

/-- The App-level `generateSpeech` handler (App.js lines 66–99):
`setIsLoading(true); setError(null)`, await the API call, on success store
the generated speech (with the metadata snapshot) and `setCurrentStep(4)`,
on failure `setError` with the prefixed message, and in `finally`
`setIsLoading(false)`. -/
def generateSpeech (s : Session) (r : FetchResult SpeechBody) : Session :=
  match speechAPI.generateSpeech r with
  | .ok result =>
      { s with
        error := none
        generatedSpeech := some
          { speech := result.speech
            structure_ := result.structure_
            suggestions := result.suggestions
            metadata := metadataOf s.wizardData }
        currentStep := 4
        isLoading := false }
  | .error e =>
      { s with
        error := some ("Failed to generate speech: " ++ e)
        isLoading := false }

/-- `resetWizard` (App.js lines 111–124): step back to 0, replace
`wizardData` with a fresh object that has no `language` key, clear the
result and the error.  `isLoading` is not touched. -/
def resetWizard (s : Session) : Session :=
  { s with
    currentStep := 0
    wizardData :=
      { occasion := ""
        audience := ""
        tone := "formal"
        length := "5"
        template := ""
        topic := ""
        additionalContext := ""
        language := none }
    generatedSpeech := none
    error := none }

/-- `nextStep` (App.js lines 126–128). -/
def nextStep (s : Session) : Session :=
  if s.currentStep < 4 then { s with currentStep := s.currentStep + 1 } else s

/-- `prevStep` (App.js lines 130–132). -/
def prevStep (s : Session) : Session :=
  if s.currentStep > 0 then { s with currentStep := s.currentStep - 1 } else s

/-- The `disabled` expression of the wizard-navigation Next button
(App.js lines 375–378). -/
def nextDisabled (s : Session) : Bool :=
  (s.currentStep == 0 && (s.wizardData.occasion == "" || s.wizardData.audience == ""))
    || (s.currentStep == 2 && s.wizardData.template == "")

/-- The `advance` operation as the user can trigger it: the Next button is
rendered only while `currentStep < 3` (App.js lines 371–382) and fires
`nextStep` only when not `disabled`; a disabled or absent button leaves the
state unchanged. -/
def advance (s : Session) : Session :=
  if s.currentStep < 3 && !nextDisabled s then nextStep s else s

/-- The `submit` operation as the user can trigger it: the generate button
(App.js lines 287–293) has `disabled={isLoading}`, so a click while loading
runs nothing; otherwise the `generateSpeech` handler runs, issuing exactly
one POST whose body is `requestBody` of the current `wizardData`.  The
second component lists the bodies of the POST requests the invocation
issued. -/
def submit (s : Session) (r : FetchResult SpeechBody) :
    Session × List (List (String × String)) :=
  if s.isLoading then (s, [])
  else (generateSpeech s r, [requestBody s.wizardData])

end App

/-- The field names of `wizardData` that the UI `onChange` handlers can set. -/
inductive WizardField where
  | occasion | audience | tone | length | template | topic | additionalContext | language
  deriving DecidableEq

/-- A UI `onChange` handler: `setWizardData({...wizardData, field: value})`.
The values delivered by the inputs are always strings, so setting `language`
makes it defined again. -/
def setField (f : WizardField) (v : String) (w : WizardData) : WizardData :=
  match f with
  | .occasion => { w with occasion := v }
  | .audience => { w with audience := v }
  | .tone => { w with tone := v }
  | .length => { w with length := v }
  | .template => { w with template := v }
  | .topic => { w with topic := v }
  | .additionalContext => { w with additionalContext := v }
  | .language => { w with language := some v }

/-- One discrete UI event of the component. -/
inductive Event where
  | set (f : WizardField) (v : String)
  | next
  | prev
  | reset
  | submitEv (r : FetchResult SpeechBody)

/-- Processing of one event by the single-threaded event loop. -/
def step (s : Session) (e : Event) : Session :=
  match e with
  | .set f v => { s with wizardData := setField f v s.wizardData }
  | .next => App.advance s
  | .prev => App.prevStep s
  | .reset => App.resetWizard s
  | .submitEv r => (App.submit s r).1

/-- Processing of a sequence of events, starting from an arbitrary state. -/
def run (s : Session) (evs : List Event) : Session :=
  evs.foldl step s

/-
Claim theorems.
-/

/-- Claim C1: for every session state (hence after every sequence of
`setField` calls), `advance` taken from step 0 leaves `currentStep` at 0
unless both `occasion` and `audience` are non-empty, and taken from step 2
it leaves `currentStep` at 2 unless `template` is non-empty; when the guard
holds, `advance` increments `currentStep` by 1. -/
theorem C1_advance_guards (s : Session) :
    (s.currentStep = 0 →
      ((s.wizardData.occasion = "" ∨ s.wizardData.audience = "") → App.advance s = s)
      ∧ (s.wizardData.occasion ≠ "" → s.wizardData.audience ≠ "" →
          App.advance s = { s with currentStep := s.currentStep + 1 }))
    ∧ (s.currentStep = 2 →
      (s.wizardData.template = "" → App.advance s = s)
      ∧ (s.wizardData.template ≠ "" →
          App.advance s = { s with currentStep := s.currentStep + 1 })) := by
  constructor
  · intro h0
    constructor
    · rintro (h | h) <;> simp [App.advance, App.nextDisabled, h0, h]
    · intro h1 h2
      simp [App.advance, App.nextDisabled, App.nextStep, h0, h1, h2]
  · intro h2
    constructor
    · intro h
      simp [App.advance, App.nextDisabled, h2, h]
    · intro h
      simp [App.advance, App.nextDisabled, App.nextStep, h2, h]

/-- Witness for C1 at concrete inputs: at step 2 with an empty `template`
the advance is a no-op, and at step 0 with both guard fields set it moves to
step 1. -/
theorem C1_advance_guards_witness :
    App.advance { initialSession with currentStep := 2 }
        = { initialSession with currentStep := 2 }
    ∧ App.advance
        { initialSession with wizardData :=
            { initialWizardData with occasion := "conference", audience := "media" } }
        = { initialSession with
            wizardData :=
              { initialWizardData with occasion := "conference", audience := "media" }
            currentStep := initialSession.currentStep + 1 } :=
  ⟨((C1_advance_guards { initialSession with currentStep := 2 }).2 rfl).1 rfl,
   ((C1_advance_guards _).1 rfl).2 (by decide) (by decide)⟩

/-- Every single event keeps `currentStep` within the upper bound 4. -/
theorem step_currentStep_le (s : Session) (e : Event) (h : s.currentStep ≤ 4) :
    (step s e).currentStep ≤ 4 := by
  cases e with
  | set f v => simpa [step] using h
  | next =>
      simp only [step, App.advance, App.nextStep]
      split
      · split
        · simp
          omega
        · exact h
      · exact h
  | prev =>
      simp only [step, App.prevStep]
      split
      · simp
        omega
      · exact h
  | reset => simp [step, App.resetWizard]
  | submitEv r =>
      simp only [step, App.submit]
      split
      · exact h
      · cases hres : speechAPI.generateSpeech r with
        | ok b => simp [App.generateSpeech, hres]
        | error e =>
            simp [App.generateSpeech, hres]
            exact h

/-- Claim C8: `currentStep` stays in [0,4] along every event sequence (it is
a `Nat`, so the lower bound is intrinsic); `prevStep` at step 0 is the
identity and otherwise only decrements `currentStep` (leaving
`generatedSpeech` and `error` untouched, as the record update shows); and
`nextStep` at step 4 is the identity. -/
theorem C8_step_range :
    (∀ evs : List Event, (run initialSession evs).currentStep ≤ 4)
    ∧ (∀ s : Session, s.currentStep = 0 → App.prevStep s = s)
    ∧ (∀ s : Session, 0 < s.currentStep →
        App.prevStep s = { s with currentStep := s.currentStep - 1 })
    ∧ (∀ s : Session, s.currentStep = 4 → App.nextStep s = s) := by
  refine ⟨?_, ?_, ?_, ?_⟩
  · have gen : ∀ (evs : List Event) (s : Session),
        s.currentStep ≤ 4 → (run s evs).currentStep ≤ 4 := by
      intro evs
      induction evs with
      | nil =>
          intro s h
          simpa [run] using h
      | cons e t ih =>
          intro s h
          simpa [run] using ih (step s e) (step_currentStep_le s e h)
    intro evs
    exact gen evs initialSession (by simp [initialSession])
  · intro s h
    simp [App.prevStep, h]
  · intro s h
    simp [App.prevStep, h]
  · intro s h
    simp [App.nextStep, h]

/-- Witness for C8 at concrete inputs. -/
theorem C8_step_range_witness :
    (run initialSession [Event.next]).currentStep ≤ 4
    ∧ App.prevStep initialSession = initialSession
    ∧ App.prevStep { initialSession with currentStep := 3 }
        = { { initialSession with currentStep := 3 } with
            currentStep := ({ initialSession with currentStep := 3 } : Session).currentStep - 1 }
    ∧ App.nextStep { initialSession with currentStep := 4 }
        = { initialSession with currentStep := 4 } :=
  ⟨C8_step_range.1 [Event.next],
   C8_step_range.2.1 initialSession rfl,
   C8_step_range.2.2.1 { initialSession with currentStep := 3 } (by decide),
   C8_step_range.2.2.2 { initialSession with currentStep := 4 } rfl⟩

/-- The error text stored by the `generateSpeech` handler is never empty. -/
theorem failMsg_ne_empty (x : String) : ("Failed to generate speech: " ++ x) ≠ "" := by
  intro h
  have h2 := congrArg String.length h
  rw [String.length_append] at h2
  have h3 : "Failed to generate speech: ".length = 27 := rfl
  have h4 : "".length = 0 := rfl
  omega

/-- Claim C2: from step 3 with no request in flight, a submit answered with
status 200 and a JSON body whose `speech` is "Hello" ends with
`currentStep = 4`, the stored result's speech equal to "Hello", no error,
and `isLoading = false`. -/
theorem C2_submit_success (s : Session) (b : SpeechBody)
    (h3 : s.currentStep = 3) (hl : s.isLoading = false) (hb : b.speech = "Hello") :
    ((App.submit s (.response 200 (.ok b))).1.currentStep = 4)
    ∧ ((App.submit s (.response 200 (.ok b))).1.generatedSpeech.map GeneratedSpeech.speech
        = some "Hello")
    ∧ ((App.submit s (.response 200 (.ok b))).1.error = none)
    ∧ ((App.submit s (.response 200 (.ok b))).1.isLoading = false) := by
  simp [App.submit, hl, App.generateSpeech, speechAPI.generateSpeech, respOk, hb]

/-- Witness for C2: the concrete session at step 3 and the concrete body
`{speech := "Hello", structure: [], suggestions: []}`. -/
theorem C2_submit_success_witness :
    ((App.submit { initialSession with currentStep := 3 }
        (.response 200 (.ok ⟨"Hello", "[]", "[]"⟩))).1.currentStep = 4)
    ∧ ((App.submit { initialSession with currentStep := 3 }
        (.response 200 (.ok ⟨"Hello", "[]", "[]"⟩))).1.generatedSpeech.map
          GeneratedSpeech.speech = some "Hello")
    ∧ ((App.submit { initialSession with currentStep := 3 }
        (.response 200 (.ok ⟨"Hello", "[]", "[]"⟩))).1.error = none)
    ∧ ((App.submit { initialSession with currentStep := 3 }
        (.response 200 (.ok ⟨"Hello", "[]", "[]"⟩))).1.isLoading = false) :=
  C2_submit_success { initialSession with currentStep := 3 } ⟨"Hello", "[]", "[]"⟩ rfl rfl rfl

/-- Claim C3: from step 3 with no request in flight, a submit answered with a
non-2xx status, or whose network call throws, leaves `currentStep` at 3,
stores a non-empty error message (containing the numeric status in the HTTP
case), ends with `isLoading = false`, and modifies neither the stored result
nor `wizardData`. -/
theorem C3_submit_failure (s : Session) (h3 : s.currentStep = 3) (hl : s.isLoading = false) :
    (∀ (status : Nat) (body : Except String SpeechBody), respOk status = false →
      (App.submit s (.response status body)).1.currentStep = 3
      ∧ (App.submit s (.response status body)).1.error
          = some ("Failed to generate speech: " ++ ("HTTP error! status: " ++ toString status))
      ∧ ("Failed to generate speech: " ++ ("HTTP error! status: " ++ toString status)) ≠ ""
      ∧ (∃ pre suf : String,
          "Failed to generate speech: " ++ ("HTTP error! status: " ++ toString status)
            = pre ++ toString status ++ suf)
      ∧ (App.submit s (.response status body)).1.isLoading = false
      ∧ (App.submit s (.response status body)).1.generatedSpeech = s.generatedSpeech
      ∧ (App.submit s (.response status body)).1.wizardData = s.wizardData)
    ∧ (∀ msg : String,
      (App.submit s (.netError msg)).1.currentStep = 3
      ∧ (App.submit s (.netError msg)).1.error
          = some ("Failed to generate speech: " ++ msg)
      ∧ ("Failed to generate speech: " ++ msg) ≠ ""
      ∧ (App.submit s (.netError msg)).1.isLoading = false
      ∧ (App.submit s (.netError msg)).1.generatedSpeech = s.generatedSpeech
      ∧ (App.submit s (.netError msg)).1.wizardData = s.wizardData) := by
  constructor
  · intro status body hbad
    refine ⟨?_, ?_, failMsg_ne_empty _, ?_, ?_, ?_, ?_⟩
    · simp [App.submit, hl, App.generateSpeech, speechAPI.generateSpeech, hbad, h3]
    · simp [App.submit, hl, App.generateSpeech, speechAPI.generateSpeech, hbad]
    · refine ⟨"Failed to generate speech: " ++ "HTTP error! status: ", "", ?_⟩
      rw [String.append_empty, String.append_assoc]
    · simp [App.submit, hl, App.generateSpeech, speechAPI.generateSpeech, hbad]
    · simp [App.submit, hl, App.generateSpeech, speechAPI.generateSpeech, hbad]
    · simp [App.submit, hl, App.generateSpeech, speechAPI.generateSpeech, hbad]
  · intro msg
    refine ⟨?_, ?_, failMsg_ne_empty _, ?_, ?_, ?_⟩ <;>
      simp [App.submit, hl, App.generateSpeech, speechAPI.generateSpeech, h3]

/-- Witness for C3: the concrete session at step 3, a 500 response, and a
thrown network error "Failed to fetch". -/
theorem C3_submit_failure_witness :
    ((App.submit { initialSession with currentStep := 3 }
        (.response 500 (.error "unexpected token"))).1.currentStep = 3
      ∧ (App.submit { initialSession with currentStep := 3 }
          (.response 500 (.error "unexpected token"))).1.error
          = some ("Failed to generate speech: " ++ ("HTTP error! status: " ++ toString 500))
      ∧ ("Failed to generate speech: " ++ ("HTTP error! status: " ++ toString 500)) ≠ ""
      ∧ (∃ pre suf : String,
          "Failed to generate speech: " ++ ("HTTP error! status: " ++ toString 500)
            = pre ++ toString 500 ++ suf)
      ∧ (App.submit { initialSession with currentStep := 3 }
          (.response 500 (.error "unexpected token"))).1.isLoading = false
      ∧ (App.submit { initialSession with currentStep := 3 }
          (.response 500 (.error "unexpected token"))).1.generatedSpeech
          = ({ initialSession with currentStep := 3 } : Session).generatedSpeech
      ∧ (App.submit { initialSession with currentStep := 3 }
          (.response 500 (.error "unexpected token"))).1.wizardData
          = ({ initialSession with currentStep := 3 } : Session).wizardData)
    ∧ ((App.submit { initialSession with currentStep := 3 }
        (.netError "Failed to fetch")).1.currentStep = 3
      ∧ (App.submit { initialSession with currentStep := 3 }
          (.netError "Failed to fetch")).1.error
          = some ("Failed to generate speech: " ++ "Failed to fetch")
      ∧ ("Failed to generate speech: " ++ "Failed to fetch") ≠ ""
      ∧ (App.submit { initialSession with currentStep := 3 }
          (.netError "Failed to fetch")).1.isLoading = false
      ∧ (App.submit { initialSession with currentStep := 3 }
          (.netError "Failed to fetch")).1.generatedSpeech
          = ({ initialSession with currentStep := 3 } : Session).generatedSpeech
      ∧ (App.submit { initialSession with currentStep := 3 }
          (.netError "Failed to fetch")).1.wizardData
          = ({ initialSession with currentStep := 3 } : Session).wizardData) :=
  ⟨(C3_submit_failure { initialSession with currentStep := 3 } rfl rfl).1 500
      (.error "unexpected token") rfl,
   (C3_submit_failure { initialSession with currentStep := 3 } rfl rfl).2 "Failed to fetch"⟩

/-- Claim C7: a submit while `isLoading` is true (the generate button is
disabled) issues no POST request and leaves the session unchanged; a submit
while not loading issues exactly one POST, with the body built from the
current `wizardData`. -/
theorem C7_single_flight (s : Session) (r : FetchResult SpeechBody) :
    (s.isLoading = true → App.submit s r = (s, []))
    ∧ (s.isLoading = false → (App.submit s r).2 = [requestBody s.wizardData]) := by
  constructor <;> intro h <;> simp [App.submit, h]

/-- Witness for C7 at concrete inputs. -/
theorem C7_single_flight_witness :
    App.submit { initialSession with isLoading := true } (.netError "x")
      = ({ initialSession with isLoading := true }, [])
    ∧ (App.submit initialSession (.netError "x")).2 = [requestBody initialSession.wizardData] :=
  ⟨(C7_single_flight { initialSession with isLoading := true } (.netError "x")).1 rfl,
   (C7_single_flight initialSession (.netError "x")).2 rfl⟩

/-- Counterexample for C4: set `language` to "dutch", then reset.  The reset
leaves `language` absent (`none`), not restored to "english". -/
theorem C4_reset_language_cex :
    (run initialSession [Event.set WizardField.language "dutch", Event.reset]).wizardData.language
      = none
    ∧ (run initialSession
        [Event.set WizardField.language "dutch", Event.reset]).wizardData.language
      ≠ some "english" := by
  exact ⟨rfl, by decide⟩

/-- Claim C4 (amended): `reset` on any session sets `currentStep = 0`, clears
the result and the error, and returns every `WizardData` field except
`language` to its default (`occasion`, `audience`, `template`, `topic`,
`additionalContext` to "", `tone` to "formal", `length` to "5"); `language`
is left absent (`undefined`), not restored to "english".  `isLoading` is
untouched. -/
theorem C4_reset_defaults (s : Session) :
    App.resetWizard s
      = { currentStep := 0
          wizardData :=
            { occasion := ""
              audience := ""
              tone := "formal"
              length := "5"
              template := ""
              topic := ""
              additionalContext := ""
              language := none }
          generatedSpeech := none
          isLoading := s.isLoading
          error := none } := rfl

/-- The key/value entries of the `metadata` object, in the order the object
literal of App.js lines 81–88 declares them. -/
def metadataPairs (m : Metadata) : List (String × Option String) :=
  [("occasion", some m.occasion),
   ("audience", some m.audience),
   ("tone", some m.tone),
   ("length", some m.length),
   ("template", some m.template),
   ("language", m.language)]

/-- A concrete event sequence that fills the wizard (with a non-empty
`topic`), walks to step 3 and submits successfully. -/
def C5cexEvents : List Event :=
  [Event.set WizardField.occasion "conference",
   Event.set WizardField.audience "media",
   Event.set WizardField.topic "climate policy",
   Event.next,
   Event.next,
   Event.set WizardField.template "persuasive",
   Event.next,
   Event.submitEv (.response 200 (.ok ⟨"Hello", "[]", "[]"⟩))]

/-- Counterexample for C5: after a successful submit with `topic` set to
"climate policy", the stored metadata snapshot has exactly the six keys
`occasion, audience, tone, length, template, language` — `topic` is not
among them, so the snapshot does not hold seven configuration fields. -/
theorem C5_metadata_topic_cex :
    ((run initialSession C5cexEvents).generatedSpeech.map
        (fun g => (metadataPairs g.metadata).map Prod.fst))
      = some ["occasion", "audience", "tone", "length", "template", "language"]
    ∧ "topic" ∉ ["occasion", "audience", "tone", "length", "template", "language"] := by
  exact ⟨rfl, by decide⟩

/-- Claim C5 (amended): when submit succeeds, the stored result is tagged
with a metadata snapshot of six configuration fields — `occasion, audience,
tone, length, template, language`, but not `topic` — holding the values they
had at submit time; subsequent `setField` calls never alter the stored
result (hence not the snapshot). -/
theorem C5_metadata_snapshot (s : Session) (r : FetchResult SpeechBody) (b : SpeechBody)
    (hl : s.isLoading = false) (hr : speechAPI.generateSpeech r = .ok b) :
    (∃ g : GeneratedSpeech, (App.submit s r).1.generatedSpeech = some g
      ∧ g.metadata = metadataOf s.wizardData
      ∧ (metadataPairs g.metadata).map Prod.fst
          = ["occasion", "audience", "tone", "length", "template", "language"])
    ∧ (∀ (s2 : Session) (f : WizardField) (v : String),
        (step s2 (.set f v)).generatedSpeech = s2.generatedSpeech) := by
  constructor
  · refine ⟨{ speech := b.speech
              structure_ := b.structure_
              suggestions := b.suggestions
              metadata := metadataOf s.wizardData }, ?_, rfl, rfl⟩
    simp [App.submit, hl, App.generateSpeech, hr]
  · intro s2 f v
    simp [step]

/-- Witness for C5 at concrete inputs: the initial session submitted with a
successful 200 response. -/
theorem C5_metadata_snapshot_witness :
    (∃ g : GeneratedSpeech,
      (App.submit initialSession (.response 200 (.ok ⟨"Hello", "[]", "[]"⟩))).1.generatedSpeech
        = some g
      ∧ g.metadata = metadataOf initialSession.wizardData
      ∧ (metadataPairs g.metadata).map Prod.fst
          = ["occasion", "audience", "tone", "length", "template", "language"])
    ∧ (∀ (s2 : Session) (f : WizardField) (v : String),
        (step s2 (.set f v)).generatedSpeech = s2.generatedSpeech) :=
  C5_metadata_snapshot initialSession (.response 200 (.ok ⟨"Hello", "[]", "[]"⟩))
    ⟨"Hello", "[]", "[]"⟩ rfl rfl

/-- `s || ''` is the identity on strings that are already defined. -/
theorem jsStringOr_empty (s : String) : jsStringOr s "" = s := by
  by_cases h : s = "" <;> simp [jsStringOr, h]

/-- Counterexample for C6: after a reset, the serialized POST body has only
seven keys — `language` is omitted because `JSON.stringify` drops the
`undefined` field — so the body does not contain exactly the eight keys. -/
theorem C6_requestBody_language_cex :
    (requestBody (run initialSession [Event.reset]).wizardData).map Prod.fst
      = ["occasion", "audience", "tone", "length", "template", "topic", "additional_context"]
    ∧ "language" ∉
        (requestBody (run initialSession [Event.reset]).wizardData).map Prod.fst := by
  exact ⟨rfl, by decide⟩

/-- Claim C6 (amended): every submit not suppressed by `isLoading` issues one
POST whose body, when `language` is defined, has exactly the eight keys
`occasion, audience, tone, length, template, topic, additional_context,
language` with all values the (string) field values — `topic` and
`additional_context` defaulted to "" by `|| ''`, `length` the string form of
the minute count; when `language` is `undefined` (after a reset) the
`language` key is omitted, leaving seven keys. -/
theorem C6_requestBody_keys (w : WizardData) :
    (∀ l : String, w.language = some l →
      requestBody w
        = [("occasion", w.occasion), ("audience", w.audience), ("tone", w.tone),
           ("length", w.length), ("template", w.template), ("topic", w.topic),
           ("additional_context", w.additionalContext), ("language", l)])
    ∧ (w.language = none →
      requestBody w
        = [("occasion", w.occasion), ("audience", w.audience), ("tone", w.tone),
           ("length", w.length), ("template", w.template), ("topic", w.topic),
           ("additional_context", w.additionalContext)])
    ∧ (∀ (s : Session) (r : FetchResult SpeechBody), s.isLoading = false →
        (App.submit s r).2 = [requestBody s.wizardData]) := by
  refine ⟨?_, ?_, ?_⟩
  · intro l hsome
    simp [requestBody, hsome, jsStringOr_empty]
  · intro hnone
    simp [requestBody, hnone, jsStringOr_empty]
  · intro s r h
    simp [App.submit, h]

/-- Witness for C6 at concrete inputs: the initial data (language defined),
the post-reset data (language absent), and a concrete submit. -/
theorem C6_requestBody_keys_witness :
    requestBody initialWizardData
      = [("occasion", ""), ("audience", ""), ("tone", "formal"), ("length", "5"),
         ("template", ""), ("topic", ""), ("additional_context", ""), ("language", "english")]
    ∧ requestBody { initialWizardData with language := none }
      = [("occasion", ""), ("audience", ""), ("tone", "formal"), ("length", "5"),
         ("template", ""), ("topic", ""), ("additional_context", "")]
    ∧ (App.submit initialSession (.netError "x")).2 = [requestBody initialSession.wizardData] :=
  ⟨(C6_requestBody_keys initialWizardData).1 "english" rfl,
   (C6_requestBody_keys { initialWizardData with language := none }).2.1 rfl,
   (C6_requestBody_keys initialWizardData).2.2 initialSession (.netError "x") rfl⟩

/-- Claim C9: `testConnection` never inspects the status code — any response
whose body parses as JSON is returned as success, a 500 with a JSON body
included; it fails exactly when the fetch throws or the body is not valid
JSON. -/
theorem C9_testConnection_ignores_status :
    (∀ (status : Nat) (b : String),
        speechAPI.testConnection (FetchResult.response status (Except.ok b)) = Except.ok b)
    ∧ (∀ b : String,
        speechAPI.testConnection (FetchResult.response 500 (Except.ok b)) = Except.ok b
        ∧ respOk 500 = false)
    ∧ (∀ m : String,
        speechAPI.testConnection (FetchResult.netError m)
          = (Except.error m : Except String String))
    ∧ (∀ (status : Nat) (m : String),
        speechAPI.testConnection (FetchResult.response status (Except.error m))
          = (Except.error m : Except String String)) :=
  ⟨fun _ _ => rfl, fun _ => ⟨rfl, rfl⟩, fun _ => rfl, fun _ _ => rfl⟩

/-- Claim C10: after `reset`, `wizardData.language` is `none` (`undefined`):
neither restored to "english" nor preserved; and the body of a subsequent
POST carries no `language` key, since `JSON.stringify` omits `undefined`
fields. -/
theorem C10_reset_drops_language (s : Session) :
    (App.resetWizard s).wizardData.language = none
    ∧ (App.resetWizard s).wizardData.language ≠ some "english"
    ∧ "language" ∉ (requestBody (App.resetWizard s).wizardData).map Prod.fst := by
  refine ⟨rfl, by simp [App.resetWizard], ?_⟩
  simp [App.resetWizard, requestBody, jsStringOr]
